import Mathlib

/-!
Shallow embedding of the stylized PS1-style shading pipeline of the
ArenaGame repository.

The scalar and vector primitives (`quantize`, `glslClamp`, `glslMod`,
`mix`, `reflect`, ...) follow the GLSL built-ins used by the fragment
shaders `src/shaders/level/levelFs.glsl`, `src/shaders/sword/swordFs.glsl`
and the bonfire/torch fragment shader.  They are stated over an arbitrary
linear ordered field with a floor so that concrete computations can be
carried out exactly in `ℚ` while the full per-pixel evaluators (which use
`sqrt` for vector lengths and `sin` for flicker) live in `ℝ`.

Texture sampling (`texture(material.diffuse, TexCoords).rgb`) is modelled
by passing the sampled base color `texColor` as an input, and the GLSL
uniform array `pointLights[N]` is modelled as a function from the light
index; the shader loop `for (i = 0; i < N; i++) result += ...` is modelled
by the left fold `lightLoop`.
-/

set_option linter.unusedSectionVars false

namespace ArenaGame

section Scalar

variable {K : Type} [LinearOrderedField K] [FloorRing K]

/-- GLSL `clamp(x, lo, hi) = min(max(x, lo), hi)`. -/
def glslClamp (x lo hi : K) : K := min (max x lo) hi

/-- GLSL `mod(x, y) = x - y * floor(x / y)`. -/
def glslMod (x y : K) : K := x - y * ⌊x / y⌋

/-- Scalar quantization step used throughout the shaders:
`floor(value * levels) / levels`. -/
def quantize (value levels : K) : K := ⌊value * levels⌋ / levels

/-- Shader constant `COLOR_LEVELS = 32.0` (final color banding). -/
def COLOR_LEVELS : K := 32

/-- Shader constant `LIGHTING_LEVELS = 8.0` (intermediate lighting terms). -/
def LIGHTING_LEVELS : K := 8

/-- Bonfire shader constant `BRIGHTNESS_THRESHOLD = 0.7`. -/
def BRIGHTNESS_THRESHOLD : K := 0.7

/-- Bonfire shader constant `EMISSIVE_FOG_FACTOR = 0.5`. -/
def EMISSIVE_FOG_FACTOR : K := 0.5

/-- Dither constant `DITHER_AMOUNT = 0.01` (literal `0.01` in the level and
sword shaders, named constant in the bonfire shader). -/
def DITHER_AMOUNT : K := 0.01

/-- Dither constant `DITHER_PATTERN = 2.0` (literal `2.0` in the level and
sword shaders, named constant in the bonfire shader). -/
def DITHER_PATTERN : K := 2

/-- Dither offset computed in every shader `main`:
`mod(screenPos.x + screenPos.y, 2.0) * 0.01`. -/
def ditherOffset (screenX screenY : K) : K :=
  glslMod (screenX + screenY) DITHER_PATTERN * DITHER_AMOUNT

/-- Raw point-light attenuation, `levelFs.glsl` line 81 / `swordFs.glsl`
line 63: `1.0 / (constant + linear * distance + quadratic * (distance * distance))`. -/
def pointAttenRaw (c l q d : K) : K := 1 / (c + l * d + q * (d * d))

/-- Attenuation actually multiplied into the light contribution,
`levelFs.glsl` line 84 / `swordFs.glsl` line 64: the raw attenuation
quantized at `LIGHTING_LEVELS`. -/
def pointAttenUsed (c l q d : K) : K :=
  quantize (pointAttenRaw c l q d) LIGHTING_LEVELS

end Scalar

/-- GLSL `vec3`, with the componentwise operations the shaders use. -/
structure Vec3 (K : Type) where
  x : K
  y : K
  z : K
deriving DecidableEq

/-- GLSL `vec4`, the type of `FragColor`. -/
structure Vec4 (K : Type) where
  r : K
  g : K
  b : K
  a : K
deriving DecidableEq

namespace Vec3

variable {K : Type} [LinearOrderedField K]

instance : Add (Vec3 K) := ⟨fun u v => ⟨u.x + v.x, u.y + v.y, u.z + v.z⟩⟩

instance : Sub (Vec3 K) := ⟨fun u v => ⟨u.x - v.x, u.y - v.y, u.z - v.z⟩⟩

instance : Neg (Vec3 K) := ⟨fun u => ⟨-u.x, -u.y, -u.z⟩⟩

/-- GLSL componentwise `vec3 * vec3`. -/
instance : Mul (Vec3 K) := ⟨fun u v => ⟨u.x * v.x, u.y * v.y, u.z * v.z⟩⟩

instance : Zero (Vec3 K) := ⟨⟨0, 0, 0⟩⟩

@[simp] theorem add_def (u v : Vec3 K) :
    u + v = ⟨u.x + v.x, u.y + v.y, u.z + v.z⟩ := rfl

@[simp] theorem sub_def (u v : Vec3 K) :
    u - v = ⟨u.x - v.x, u.y - v.y, u.z - v.z⟩ := rfl

@[simp] theorem neg_def (u : Vec3 K) : -u = ⟨-u.x, -u.y, -u.z⟩ := rfl

@[simp] theorem mul_def (u v : Vec3 K) :
    u * v = ⟨u.x * v.x, u.y * v.y, u.z * v.z⟩ := rfl

@[simp] theorem zero_def : (0 : Vec3 K) = ⟨0, 0, 0⟩ := rfl

/-- GLSL `vec3 * scalar`. -/
def scale (u : Vec3 K) (s : K) : Vec3 K := ⟨u.x * s, u.y * s, u.z * s⟩

/-- GLSL `vec3(s)`: the same scalar in every component. -/
def splat (s : K) : Vec3 K := ⟨s, s, s⟩

/-- GLSL `dot`. -/
def dot (u v : Vec3 K) : K := u.x * v.x + (u.y * v.y + u.z * v.z)

/-- GLSL componentwise `clamp` on a `vec3`. -/
def clampC (u : Vec3 K) (lo hi : K) : Vec3 K :=
  ⟨glslClamp u.x lo hi, glslClamp u.y lo hi, glslClamp u.z lo hi⟩

end Vec3

section VecOps

variable {K : Type} [LinearOrderedField K] [FloorRing K]

/-- GLSL `mix(a, b, t) = a * (1 - t) + b * t`, componentwise. -/
def mix (a b : Vec3 K) (t : K) : Vec3 K := a.scale (1 - t) + b.scale t

/-- GLSL `reflect(I, N) = I - 2 * dot(N, I) * N`. -/
def reflect (I N : Vec3 K) : Vec3 K := I - N.scale (2 * N.dot I)

/-- Shader function `quantizeColor(color, levels) = floor(color * levels) / levels`,
componentwise. -/
def quantizeColor (color : Vec3 K) (levels : K) : Vec3 K :=
  ⟨quantize color.x levels, quantize color.y levels, quantize color.z levels⟩

/-- Shader loop `for (i = 0; i < n; i++) acc += f(i)`, as a left fold from `0`. -/
def lightLoop (n : ℕ) (f : ℕ → Vec3 K) : Vec3 K :=
  match n with
  | 0 => 0
  | m + 1 => lightLoop m f + f m

/-- Final two statements shared by all three shader `main`s:
`result = clamp(result, 0.0, 1.0); FragColor = vec4(result, 1.0);`. -/
def clampAndOut (result : Vec3 K) : Vec4 K :=
  let r := result.clampC 0 1
  ⟨r.x, r.y, r.z, 1⟩

end VecOps

/-- GLSL `DirLight` uniform struct (identical in all three shaders). -/
structure DirLight (K : Type) where
  direction : Vec3 K
  ambient : Vec3 K
  diffuse : Vec3 K
  specular : Vec3 K

/-- GLSL `PointLight` uniform struct (level and sword shaders). -/
structure PointLight (K : Type) where
  position : Vec3 K
  constant : K
  linear : K
  quadratic : K
  ambient : Vec3 K
  diffuse : Vec3 K
  specular : Vec3 K

/-- Material parameters supplied by the renderer (`Renderer::setupLighting`,
`Renderer::setupTorchLighting` and `Renderer::renderLightBeam` in
`src/main/renderer.cpp`).  The GLSL `Material` structs declare `shininess`
(and, in the bonfire shader, `emissiveStrength`); the renderer additionally
sets a `material.alpha` uniform that no shader declares.  The `pow` exponent
`shininess` is modelled as a natural number; every configured value
(`MATERIAL_SHININESS = 4.0`, `TORCH_SHININESS = 2.0`, and `1.0` for the
light beam) is integral. -/
structure Material (K : Type) where
  shininess : ℕ
  emissiveStrength : K
  alpha : K

/-- GLSL `length(v) = sqrt(dot(v, v))`. -/
noncomputable def vecLength (v : Vec3 ℝ) : ℝ := Real.sqrt (v.dot v)

/-- GLSL `normalize(v) = v / length(v)`. -/
noncomputable def normalizeV (v : Vec3 ℝ) : Vec3 ℝ := v.scale (1 / vecLength v)

/-- Function `CalcPS1DirLight` of `levelFs.glsl` (lines 53-69) and
`swordFs.glsl` (lines 45-55); the two copies are textually identical up to
comments.  The sampled texel `texture(material.diffuse, TexCoords).rgb` is
the input `texColor`. -/
noncomputable def CalcPS1DirLight (light : DirLight ℝ) (normal texColor : Vec3 ℝ) :
    Vec3 ℝ :=
  let lightDir := normalizeV (-light.direction)
  let diff := max (normal.dot lightDir) 0
  let diff := quantize diff LIGHTING_LEVELS
  let ambient := (light.ambient * texColor).scale 0.3
  let diffuse := (light.diffuse.scale diff) * texColor
  ambient + diffuse

/-- Function `CalcPS1PointLight` of `levelFs.glsl` (lines 72-92) and
`swordFs.glsl` (lines 57-71); the two copies are textually identical up to
comments.  The attenuation lines 81 and 84 are the helpers `pointAttenRaw`
and `pointAttenUsed`. -/
noncomputable def CalcPS1PointLight (light : PointLight ℝ)
    (normal fragPos texColor : Vec3 ℝ) : Vec3 ℝ :=
  let lightDir := normalizeV (light.position - fragPos)
  let diff := max (normal.dot lightDir) 0
  let diff := quantize diff LIGHTING_LEVELS
  let distance := vecLength (light.position - fragPos)
  let attenuation := pointAttenUsed light.constant light.linear light.quadratic distance
  let ambient := (light.ambient * texColor).scale 0.2
  let diffuse := (light.diffuse.scale diff) * texColor
  (ambient + diffuse).scale attenuation

/-- Per-pixel evaluation of `levelFs.glsl` `main` (lines 94-127).
`material` carries the renderer-supplied material uniforms; the level
shader reads none of them beyond the diffuse texture (modelled by
`texColor`), in particular `material.alpha` is not read. -/
noncomputable def levelShade (dirLight : DirLight ℝ) (pointLights : ℕ → PointLight ℝ)
    (_material : Material ℝ) (normal fragPos viewPos texColor : Vec3 ℝ)
    (fogNear fogFar : ℝ) (fogColor : Vec3 ℝ) (screenX screenY : ℝ) : Vec4 ℝ :=
  let norm := normalizeV normal
  let result := CalcPS1DirLight dirLight norm texColor
  let result := result +
    lightLoop 8 (fun i => CalcPS1PointLight (pointLights i) norm fragPos texColor)
  let result := quantizeColor result COLOR_LEVELS
  let distance := vecLength (viewPos - fragPos)
  let fogFactor := glslClamp ((fogFar - distance) / (fogFar - fogNear)) 0 1
  let fogFactor := quantize fogFactor LIGHTING_LEVELS
  let result := mix fogColor result fogFactor
  let dither := ditherOffset screenX screenY
  let result := result + Vec3.splat dither
  clampAndOut result

/-- Specular factor computed twice in `swordFs.glsl` `main` (lines 81 and 89):
`pow(max(dot(viewDir, reflect(-lightDir, normal)), 0.0), shininess)`. -/
noncomputable def specFactor (viewDir lightDir normal : Vec3 ℝ) (shininess : ℕ) : ℝ :=
  (max (viewDir.dot (reflect (-lightDir) normal)) 0) ^ shininess

/-- Per-pixel evaluation of `swordFs.glsl` `main` (lines 73-104). -/
noncomputable def swordShade (dirLight : DirLight ℝ) (pointLights : ℕ → PointLight ℝ)
    (material : Material ℝ) (normal fragPos viewPos texColor : Vec3 ℝ)
    (screenX screenY : ℝ) : Vec4 ℝ :=
  let norm := normalizeV normal
  let viewDir := normalizeV (viewPos - fragPos)
  let dirColor := CalcPS1DirLight dirLight norm texColor
  let dirLightDir := normalizeV (-dirLight.direction)
  let dirSpecular := dirLight.specular.scale (specFactor viewDir dirLightDir norm material.shininess)
  let result := (0 : Vec3 ℝ) + (dirColor + dirSpecular)
  let result := result + lightLoop 9 (fun i =>
    CalcPS1PointLight (pointLights i) norm fragPos texColor +
      (pointLights i).specular.scale
        (specFactor viewDir (normalizeV ((pointLights i).position - fragPos)) norm
          material.shininess))
  let result := quantizeColor result COLOR_LEVELS
  let result := result + Vec3.splat (ditherOffset screenX screenY)
  clampAndOut result

section Torch

variable {K : Type} [LinearOrderedField K] [FloorRing K]

/-- Luminance computed by the bonfire shader `main` (line 69):
`dot(texColor, vec3(0.299, 0.587, 0.114))`. -/
def luminance (texColor : Vec3 K) : K := texColor.dot ⟨0.299, 0.587, 0.114⟩

/-- Emissive term of the bonfire shader `main` (lines 67-72): the base
emissive `texColor * emissiveStrength * flicker`, plus the fixed warm boost
`vec3(1.0, 0.6, 0.1) * emissiveStrength * flicker * 0.8` when the texel
luminance exceeds `BRIGHTNESS_THRESHOLD`. -/
def torchEmissive (texColor : Vec3 K) (emissiveStrength flicker : K) : Vec3 K :=
  let emissive := (texColor.scale emissiveStrength).scale flicker
  let brightness := luminance texColor
  if BRIGHTNESS_THRESHOLD < brightness then
    emissive + ((⟨1, 0.6, 0.1⟩ : Vec3 K).scale emissiveStrength).scale (flicker * 0.8)
  else
    emissive

/-- Fog factor of the bonfire shader `main` (lines 79-84): distance fog
clamped to `[0,1]`, quantized at `LIGHTING_LEVELS`, and only then offset by
`emissiveStrength * EMISSIVE_FOG_FACTOR` and re-clamped. -/
def bonfireFogFactor (distance fogNear fogFar emissiveStrength : K) : K :=
  let fogFactor := glslClamp ((fogFar - distance) / (fogFar - fogNear)) 0 1
  let fogFactor := quantize fogFactor LIGHTING_LEVELS
  let emissiveFactor := emissiveStrength * EMISSIVE_FOG_FACTOR
  glslClamp (fogFactor + emissiveFactor) 0 1

end Torch

/-- Function `calculateTorchLighting` of the bonfire shader (lines 41-51). -/
noncomputable def calculateTorchLighting (dirLight : DirLight ℝ)
    (normal texColor : Vec3 ℝ) : Vec3 ℝ :=
  let lightDir := normalizeV (-dirLight.direction)
  let diff := max (normal.dot lightDir) 0
  let diff := quantize diff LIGHTING_LEVELS
  let ambient := (dirLight.ambient * texColor).scale 0.3
  let diffuse := ((dirLight.diffuse.scale diff) * texColor).scale 0.5
  ambient + diffuse

/-- Function `calculateFlicker` of the bonfire shader (lines 53-58). -/
noncomputable def calculateFlicker (time : ℝ) : ℝ :=
  let flicker := Real.sin (time * 8) * 0.1 +
    (Real.sin (time * 12) * 0.05 + Real.sin (time * 16) * 0.03)
  glslClamp (0.8 + flicker) 0.5 1

/-- Per-pixel evaluation of the bonfire/torch fragment shader `main`
(lines 60-95). -/
noncomputable def bonfireShade (dirLight : DirLight ℝ) (material : Material ℝ)
    (normal fragPos viewPos texColor : Vec3 ℝ) (time fogNear fogFar : ℝ)
    (fogColor : Vec3 ℝ) (screenX screenY : ℝ) : Vec4 ℝ :=
  let norm := normalizeV normal
  let result := calculateTorchLighting dirLight norm texColor
  let flicker := calculateFlicker time
  let emissive := torchEmissive texColor material.emissiveStrength flicker
  let result := result + emissive
  let result := quantizeColor result COLOR_LEVELS
  let distance := vecLength (viewPos - fragPos)
  let fogFactor := bonfireFogFactor distance fogNear fogFar material.emissiveStrength
  let result := mix fogColor result fogFactor
  let result := result + Vec3.splat (ditherOffset screenX screenY)
  clampAndOut result

/-- Flicker constant `FLICKER_BASE = 0.9f` from `src/include/config.h`. -/
def FLICKER_BASE : ℝ := 0.9

/-- Flicker constant `FLICKER_AMPLITUDE = 0.1f` from `src/include/config.h`. -/
def FLICKER_AMPLITUDE : ℝ := 0.1

/-- Flicker constant `FLICKER_FREQ1 = 8.0f` from `src/include/config.h`. -/
def FLICKER_FREQ1 : ℝ := 8

/-- Flicker constant `FLICKER_FREQ2 = 15.0f` from `src/include/config.h`. -/
def FLICKER_FREQ2 : ℝ := 15

/-- Flicker constant `FLICKER_PHASE1 = 1.5f` from `src/include/config.h`. -/
def FLICKER_PHASE1 : ℝ := 1.5

/-- Flicker constant `FLICKER_PHASE2 = 0.8f` from `src/include/config.h`. -/
def FLICKER_PHASE2 : ℝ := 0.8

/-- Per-light phased flicker scalar computed by `Renderer::setupLighting`
(`src/main/renderer.cpp` line 86) for the bonfire light index `i`:
`FLICKER_BASE + FLICKER_AMPLITUDE * sin(time * FLICKER_FREQ1 + i * FLICKER_PHASE1)
* sin(time * FLICKER_FREQ2 + i * FLICKER_PHASE2)`. -/
noncomputable def setupFlicker (time : ℝ) (i : ℕ) : ℝ :=
  FLICKER_BASE + FLICKER_AMPLITUDE *
    Real.sin (time * FLICKER_FREQ1 + i * FLICKER_PHASE1) *
    Real.sin (time * FLICKER_FREQ2 + i * FLICKER_PHASE2)

section Lemmas

variable {K : Type} [LinearOrderedField K] [FloorRing K]

@[ext] theorem Vec3.extC {u v : Vec3 K} (hx : u.x = v.x) (hy : u.y = v.y)
    (hz : u.z = v.z) : u = v := by
  cases u; cases v; simp_all

theorem glslClamp01_nonneg (x : K) : 0 ≤ glslClamp x 0 1 :=
  le_min (le_max_right x 0) zero_le_one

theorem glslClamp01_le_one (x : K) : glslClamp x 0 1 ≤ 1 := min_le_right _ _

theorem quantize_nonneg {v L : K} (hv : 0 ≤ v) (hL : 0 < L) :
    0 ≤ quantize v L :=
  div_nonneg (by exact_mod_cast Int.floor_nonneg.mpr (mul_nonneg hv hL.le)) hL.le

theorem quantize_le_self_of_le_one {v L : K} (hv : v ≤ 1) (hL : 0 < L) :
    quantize v L ≤ 1 := by
  rw [quantize, div_le_one hL]
  calc (⌊v * L⌋ : K) ≤ v * L := Int.floor_le _
    _ ≤ 1 * L := by nlinarith
    _ = L := one_mul L

end Lemmas

/-- Claim C1: in the point-light contribution, the attenuation is computed as
`1 / (constant + linear * distance + quadratic * distance^2)`, quantized at
`LIGHTING_LEVELS = 8`, and multiplied into `(ambient + diffuse)`; for
`constant = 1`, `linear = 0.25`, `quadratic = 0.25` and distance `2`, the
attenuation actually used is exactly `floor(0.4 * 8) / 8 = 3/8 = 0.375`,
not `0.4`. -/
theorem claim_C1 :
    pointAttenRaw (K := ℚ) 1 (1/4) (1/4) 2 = 2/5
    ∧ pointAttenUsed (K := ℚ) 1 (1/4) (1/4) 2 = 3/8
    ∧ pointAttenUsed (K := ℚ) 1 (1/4) (1/4) 2 ≠ pointAttenRaw (K := ℚ) 1 (1/4) (1/4) 2
    ∧ LIGHTING_LEVELS (K := ℚ) = 8
    ∧ ∀ (light : PointLight ℝ) (normal fragPos texColor : Vec3 ℝ),
        CalcPS1PointLight light normal fragPos texColor =
          ((light.ambient * texColor).scale 0.2 +
            (light.diffuse.scale
              (quantize (max (normal.dot (normalizeV (light.position - fragPos))) 0)
                LIGHTING_LEVELS)) * texColor).scale
            (pointAttenUsed light.constant light.linear light.quadratic
              (vecLength (light.position - fragPos))) := by
  refine ⟨?_, ?_, ?_, rfl, fun light normal fragPos texColor => rfl⟩
  · norm_num [pointAttenRaw]
  · norm_num [pointAttenUsed, pointAttenRaw, quantize, LIGHTING_LEVELS]
  · norm_num [pointAttenUsed, pointAttenRaw, quantize, LIGHTING_LEVELS]

/-- Claim C3: `quantize(value, levels) = floor(value * levels) / levels` is,
for every fixed `levels > 0`, monotone non-decreasing in `value`, and
idempotent. -/
theorem claim_C3 (L x y : ℚ) (hL : 0 < L) (hxy : x ≤ y) :
    quantize x L ≤ quantize y L
    ∧ quantize (quantize x L) L = quantize x L := by
  constructor
  · rw [quantize, quantize, div_le_div_iff_of_pos_right hL]
    exact_mod_cast Int.floor_le_floor (mul_le_mul_of_nonneg_right hxy hL.le)
  · rw [quantize, quantize, div_mul_cancel₀ _ hL.ne.symm, Int.floor_intCast]

/-- Witness for C3 at `levels = 8`, `x = 2/5`, `y = 9/10`. -/
theorem claim_C3_witness :
    (0 : ℚ) < 8 ∧ (2/5 : ℚ) ≤ 9/10
    ∧ (quantize (2/5 : ℚ) 8 ≤ quantize (9/10 : ℚ) 8
        ∧ quantize (quantize (2/5 : ℚ) 8) 8 = quantize (2/5 : ℚ) 8) :=
  ⟨by norm_num, by norm_num, claim_C3 8 (2/5) (9/10) (by norm_num) (by norm_num)⟩

/-- Claim C4: in the bonfire shader the fog factor is clamped to `[0,1]`,
quantized at `LIGHTING_LEVELS = 8`, and only after that quantization is the
emissive offset applied as `clamp(fogFactor + emissiveStrength * 0.5, 0, 1)`
with `EMISSIVE_FOG_FACTOR = 0.5`, before the final
`mix(fogColor, litColor, fogFactor)`. -/
theorem claim_C4 :
    (∀ distance fogNear fogFar es : ℚ,
      bonfireFogFactor distance fogNear fogFar es =
        glslClamp
          (quantize (glslClamp ((fogFar - distance) / (fogFar - fogNear)) 0 1)
            LIGHTING_LEVELS + es * EMISSIVE_FOG_FACTOR) 0 1)
    ∧ LIGHTING_LEVELS (K := ℚ) = 8
    ∧ EMISSIVE_FOG_FACTOR (K := ℚ) = 1/2
    ∧ ∀ (dirLight : DirLight ℝ) (material : Material ℝ)
        (normal fragPos viewPos texColor : Vec3 ℝ) (time fogNear fogFar : ℝ)
        (fogColor : Vec3 ℝ) (screenX screenY : ℝ),
        bonfireShade dirLight material normal fragPos viewPos texColor time
            fogNear fogFar fogColor screenX screenY =
          clampAndOut
            (mix fogColor
              (quantizeColor
                (calculateTorchLighting dirLight (normalizeV normal) texColor +
                  torchEmissive texColor material.emissiveStrength
                    (calculateFlicker time)) COLOR_LEVELS)
              (bonfireFogFactor (vecLength (viewPos - fragPos)) fogNear fogFar
                material.emissiveStrength) +
              Vec3.splat (ditherOffset screenX screenY)) := by
  refine ⟨fun distance fogNear fogFar es => rfl, rfl, by norm_num [EMISSIVE_FOG_FACTOR],
    fun dirLight material normal fragPos viewPos texColor time fogNear fogFar
      fogColor screenX screenY => rfl⟩

/-- Counterexample to claim C2 as stated: for the two gray base colors with
luminance `0.699` and `0.701` (straddling `BRIGHTNESS_THRESHOLD = 0.7`),
`emissiveStrength = 1` and `flicker = 1`, the two emissive outputs do NOT
differ by exactly the boost term `(1.0, 0.6, 0.1) * emissiveStrength *
flicker * 0.8`: the base term `texColor * emissiveStrength * flicker` also
differs. -/
theorem claim_C2_cex :
    torchEmissive (⟨701/1000, 701/1000, 701/1000⟩ : Vec3 ℚ) 1 1 -
        torchEmissive (⟨699/1000, 699/1000, 699/1000⟩ : Vec3 ℚ) 1 1 ≠
      ((⟨1, 0.6, 0.1⟩ : Vec3 ℚ).scale 1).scale (1 * 0.8) := by
  norm_num [torchEmissive, luminance, Vec3.dot, Vec3.scale, BRIGHTNESS_THRESHOLD,
    Vec3.mk.injEq]

/-- Claim C2 (amended): for any fixed emissive strength and flicker value the
emissive term is `baseColor * emissiveStrength * flicker`, and exactly when
the luminance `dot(baseColor, (0.299, 0.587, 0.114))` exceeds `0.7` the fixed
boost `(1.0, 0.6, 0.1) * emissiveStrength * flicker * 0.8` is additionally
added; hence for two base colors with luminance straddling `0.7` and
otherwise identical inputs the emissive outputs differ by the boost term plus
the base-term difference `(c2 - c1) * emissiveStrength * flicker` (the jump
at the threshold is exactly the boost term). -/
theorem claim_C2_amended (texColor1 texColor2 : Vec3 ℚ) (es fl : ℚ)
    (h1 : luminance texColor1 ≤ BRIGHTNESS_THRESHOLD)
    (h2 : BRIGHTNESS_THRESHOLD < luminance texColor2) :
    torchEmissive texColor1 es fl = (texColor1.scale es).scale fl
    ∧ torchEmissive texColor2 es fl =
        (texColor2.scale es).scale fl +
          ((⟨1, 0.6, 0.1⟩ : Vec3 ℚ).scale es).scale (fl * 0.8)
    ∧ torchEmissive texColor2 es fl - torchEmissive texColor1 es fl =
        (texColor2 - texColor1).scale (es * fl) +
          ((⟨1, 0.6, 0.1⟩ : Vec3 ℚ).scale es).scale (fl * 0.8) := by
  have e1 : torchEmissive texColor1 es fl = (texColor1.scale es).scale fl := by
    rw [torchEmissive, if_neg (not_lt.mpr h1)]
  have e2 : torchEmissive texColor2 es fl =
      (texColor2.scale es).scale fl +
        ((⟨1, 0.6, 0.1⟩ : Vec3 ℚ).scale es).scale (fl * 0.8) := by
    rw [torchEmissive, if_pos h2]
  refine ⟨e1, e2, ?_⟩
  rw [e1, e2]
  ext <;> simp [Vec3.scale] <;> ring

/-- Witness for the amended C2 at `texColor1 = (1/2, 1/2, 1/2)` (luminance
`1/2`), `texColor2 = (1, 1, 1)` (luminance `1`), `emissiveStrength = 3/2`,
`flicker = 4/5`. -/
theorem claim_C2_amended_witness :
    luminance (⟨1/2, 1/2, 1/2⟩ : Vec3 ℚ) ≤ BRIGHTNESS_THRESHOLD
    ∧ BRIGHTNESS_THRESHOLD < luminance (⟨1, 1, 1⟩ : Vec3 ℚ)
    ∧ (torchEmissive (⟨1/2, 1/2, 1/2⟩ : Vec3 ℚ) (3/2) (4/5) =
          ((⟨1/2, 1/2, 1/2⟩ : Vec3 ℚ).scale (3/2)).scale (4/5)
        ∧ torchEmissive (⟨1, 1, 1⟩ : Vec3 ℚ) (3/2) (4/5) =
            ((⟨1, 1, 1⟩ : Vec3 ℚ).scale (3/2)).scale (4/5) +
              ((⟨1, 0.6, 0.1⟩ : Vec3 ℚ).scale (3/2)).scale (4/5 * 0.8)
        ∧ torchEmissive (⟨1, 1, 1⟩ : Vec3 ℚ) (3/2) (4/5) -
              torchEmissive (⟨1/2, 1/2, 1/2⟩ : Vec3 ℚ) (3/2) (4/5) =
            ((⟨1, 1, 1⟩ : Vec3 ℚ) - ⟨1/2, 1/2, 1/2⟩).scale (3/2 * (4/5)) +
              ((⟨1, 0.6, 0.1⟩ : Vec3 ℚ).scale (3/2)).scale (4/5 * 0.8)) :=
  ⟨by norm_num [luminance, Vec3.dot, BRIGHTNESS_THRESHOLD],
   by norm_num [luminance, Vec3.dot, BRIGHTNESS_THRESHOLD],
   claim_C2_amended ⟨1/2, 1/2, 1/2⟩ ⟨1, 1, 1⟩ (3/2) (4/5)
     (by norm_num [luminance, Vec3.dot, BRIGHTNESS_THRESHOLD])
     (by norm_num [luminance, Vec3.dot, BRIGHTNESS_THRESHOLD])⟩

/-- RGB components of a `vec4` color lie in `[0, 1]`. -/
def inUnitRGB {K : Type} [LinearOrderedField K] (c : Vec4 K) : Prop :=
  0 ≤ c.r ∧ c.r ≤ 1 ∧ (0 ≤ c.g ∧ c.g ≤ 1) ∧ (0 ≤ c.b ∧ c.b ≤ 1)

theorem clampAndOut_inUnitRGB {K : Type} [LinearOrderedField K] [FloorRing K] (v : Vec3 K) :
    inUnitRGB (clampAndOut v) :=
  ⟨glslClamp01_nonneg _, glslClamp01_le_one _,
    ⟨glslClamp01_nonneg _, glslClamp01_le_one _⟩,
    ⟨glslClamp01_nonneg _, glslClamp01_le_one _⟩⟩

/-- Claim C5: for every input, including arbitrarily overbright light and
emissive colors, the final RGB color returned by each of the three shading
variants lies in `[0, 1]^3`, because `clamp(result, 0.0, 1.0)` is the last
step before output. -/
theorem claim_C5 :
    (∀ (dirLight : DirLight ℝ) (pointLights : ℕ → PointLight ℝ)
        (material : Material ℝ) (normal fragPos viewPos texColor : Vec3 ℝ)
        (fogNear fogFar : ℝ) (fogColor : Vec3 ℝ) (screenX screenY : ℝ),
        inUnitRGB (levelShade dirLight pointLights material normal fragPos
          viewPos texColor fogNear fogFar fogColor screenX screenY))
    ∧ (∀ (dirLight : DirLight ℝ) (pointLights : ℕ → PointLight ℝ)
        (material : Material ℝ) (normal fragPos viewPos texColor : Vec3 ℝ)
        (screenX screenY : ℝ),
        inUnitRGB (swordShade dirLight pointLights material normal fragPos
          viewPos texColor screenX screenY))
    ∧ (∀ (dirLight : DirLight ℝ) (material : Material ℝ)
        (normal fragPos viewPos texColor : Vec3 ℝ) (time fogNear fogFar : ℝ)
        (fogColor : Vec3 ℝ) (screenX screenY : ℝ),
        inUnitRGB (bonfireShade dirLight material normal fragPos viewPos
          texColor time fogNear fogFar fogColor screenX screenY)) :=
  ⟨fun _ _ _ _ _ _ _ _ _ _ _ _ => clampAndOut_inUnitRGB _,
   fun _ _ _ _ _ _ _ _ _ => clampAndOut_inUnitRGB _,
   fun _ _ _ _ _ _ _ _ _ _ _ _ => clampAndOut_inUnitRGB _⟩

/-- Claim C9 evaluation: every shading variant writes `FragColor =
vec4(result, 1.0)`, so the alpha component of the output is the constant `1`
for every caller-supplied material (the `material.alpha` uniform set by
`Renderer::setupLighting` and `Renderer::renderLightBeam` is never read by a
shader); in particular, for the light-beam draw call that sets
`material.alpha = 0.15`, the output alpha is `1`, not `0.15`. -/
theorem claim_C9_alpha :
    (∀ (dirLight : DirLight ℝ) (pointLights : ℕ → PointLight ℝ)
        (material : Material ℝ) (normal fragPos viewPos texColor : Vec3 ℝ)
        (fogNear fogFar : ℝ) (fogColor : Vec3 ℝ) (screenX screenY : ℝ),
        (levelShade dirLight pointLights material normal fragPos viewPos
          texColor fogNear fogFar fogColor screenX screenY).a = 1)
    ∧ (∀ (dirLight : DirLight ℝ) (pointLights : ℕ → PointLight ℝ)
        (material : Material ℝ) (normal fragPos viewPos texColor : Vec3 ℝ)
        (screenX screenY : ℝ),
        (swordShade dirLight pointLights material normal fragPos viewPos
          texColor screenX screenY).a = 1)
    ∧ (∀ (dirLight : DirLight ℝ) (material : Material ℝ)
        (normal fragPos viewPos texColor : Vec3 ℝ) (time fogNear fogFar : ℝ)
        (fogColor : Vec3 ℝ) (screenX screenY : ℝ),
        (bonfireShade dirLight material normal fragPos viewPos texColor time
          fogNear fogFar fogColor screenX screenY).a = 1)
    ∧ (levelShade ⟨0, 0, 0, 0⟩ (fun _ => ⟨0, 1, 0, 0, 0, 0, 0⟩) ⟨1, 0, 0.15⟩
        0 0 0 0 1 2 0 0 0).a ≠ (0.15 : ℝ) := by
  refine ⟨fun _ _ _ _ _ _ _ _ _ _ _ _ => rfl, fun _ _ _ _ _ _ _ _ _ => rfl,
    fun _ _ _ _ _ _ _ _ _ _ _ _ => rfl, ?_⟩
  have h : (levelShade ⟨0, 0, 0, 0⟩ (fun _ => ⟨0, 1, 0, 0, 0, 0, 0⟩) ⟨1, 0, 0.15⟩
      0 0 0 0 1 2 0 0 0).a = 1 := rfl
  rw [h]
  norm_num

/-- Claim C7: the simple flicker `clamp(0.8 + sin(t*8)*0.1 + sin(t*12)*0.05 +
sin(t*16)*0.03, 0.5, 1.0)` lies in `[0.5, 1.0]` for every real `t`, and the
per-light phased flicker of `Renderer::setupLighting` (base `0.9`, amplitude
`0.1`) lies in `[base - amplitude, base + amplitude]` for every `t` and
every light index `i`. -/
theorem claim_C7 (t : ℝ) (i : ℕ) :
    (1/2 ≤ calculateFlicker t ∧ calculateFlicker t ≤ 1)
    ∧ (FLICKER_BASE - FLICKER_AMPLITUDE ≤ setupFlicker t i
        ∧ setupFlicker t i ≤ FLICKER_BASE + FLICKER_AMPLITUDE) := by
  refine ⟨⟨?_, ?_⟩, ?_, ?_⟩
  · refine le_min (le_trans (by norm_num) (le_max_right _ (0.5 : ℝ))) (by norm_num)
  · exact min_le_right _ _
  all_goals
    have h1 := Real.neg_one_le_sin (t * FLICKER_FREQ1 + i * FLICKER_PHASE1)
    have h2 := Real.sin_le_one (t * FLICKER_FREQ1 + i * FLICKER_PHASE1)
    have h3 := Real.neg_one_le_sin (t * FLICKER_FREQ2 + i * FLICKER_PHASE2)
    have h4 := Real.sin_le_one (t * FLICKER_FREQ2 + i * FLICKER_PHASE2)
    rw [setupFlicker, FLICKER_BASE, FLICKER_AMPLITUDE]
    nlinarith [mul_nonneg (by linarith : (0:ℝ) ≤ 1 - Real.sin (t * FLICKER_FREQ1 + i * FLICKER_PHASE1))
        (by linarith : (0:ℝ) ≤ 1 - Real.sin (t * FLICKER_FREQ2 + i * FLICKER_PHASE2)),
      mul_nonneg (by linarith : (0:ℝ) ≤ 1 + Real.sin (t * FLICKER_FREQ1 + i * FLICKER_PHASE1))
        (by linarith : (0:ℝ) ≤ 1 + Real.sin (t * FLICKER_FREQ2 + i * FLICKER_PHASE2)),
      mul_nonneg (by linarith : (0:ℝ) ≤ 1 - Real.sin (t * FLICKER_FREQ1 + i * FLICKER_PHASE1))
        (by linarith : (0:ℝ) ≤ 1 + Real.sin (t * FLICKER_FREQ2 + i * FLICKER_PHASE2)),
      mul_nonneg (by linarith : (0:ℝ) ≤ 1 + Real.sin (t * FLICKER_FREQ1 + i * FLICKER_PHASE1))
        (by linarith : (0:ℝ) ≤ 1 - Real.sin (t * FLICKER_FREQ2 + i * FLICKER_PHASE2))]

/-- Parity evaluation of the GLSL `mod(·, 2.0)` on integer inputs. -/
theorem glslMod_int_two {K : Type} [LinearOrderedField K] [FloorRing K] (k : ℤ) :
    glslMod (k : K) 2 = if Even k then 0 else 1 := by
  rcases Int.even_or_odd k with ⟨m, hm⟩ | ⟨m, hm⟩
  · subst hm
    rw [if_pos ⟨m, rfl⟩, glslMod]
    have h : ((m + m : ℤ) : K) / 2 = (m : K) := by push_cast; ring
    rw [h, Int.floor_intCast]
    push_cast; ring
  · subst hm
    rw [if_neg (by rw [Int.even_iff]; omega), glslMod]
    have h : ((2 * m + 1 : ℤ) : K) / 2 = (m : K) + 1/2 := by push_cast; ring
    have hfl : ⌊(m : K) + 1/2⌋ = m := by
      rw [Int.floor_int_add]
      norm_num
    rw [h, hfl]
    push_cast; ring

/-- Dither offset at an integer pixel coordinate, as a function of the
parity of `x + y`. -/
theorem ditherOffset_int {K : Type} [LinearOrderedField K] [FloorRing K] (x y : ℤ) :
    ditherOffset (x : K) (y : K) =
      if Even (x + y) then 0 else DITHER_AMOUNT := by
  rw [ditherOffset, DITHER_PATTERN]
  have h : (x : K) + (y : K) = ((x + y : ℤ) : K) := by push_cast; ring
  rw [h, glslMod_int_two]
  split
  · rw [zero_mul]
  · rw [one_mul]

/-- Claim C8: the dither offset `mod(screenX + screenY, 2) * 0.01` is a pure
function of the integer screen pixel coordinate; pixel coordinates differing
by `1` in `x` or in `y` produce the two alternating values
`{0, ditherAmount}`, and the shader adds the same scalar offset to all three
color channels (`result += vec3(dither)`). -/
theorem claim_C8 (x y : ℤ) :
    (ditherOffset (x : ℚ) (y : ℚ) = 0 ∨ ditherOffset (x : ℚ) (y : ℚ) = DITHER_AMOUNT)
    ∧ ditherOffset ((x + 1 : ℤ) : ℚ) (y : ℚ) ≠ ditherOffset (x : ℚ) (y : ℚ)
    ∧ ditherOffset (x : ℚ) ((y + 1 : ℤ) : ℚ) ≠ ditherOffset (x : ℚ) (y : ℚ)
    ∧ ({ditherOffset ((x + 1 : ℤ) : ℚ) (y : ℚ), ditherOffset (x : ℚ) (y : ℚ)} : Set ℚ) =
        {0, DITHER_AMOUNT}
    ∧ ∀ (c : Vec3 ℚ) (d : ℚ), c + Vec3.splat d = ⟨c.x + d, c.y + d, c.z + d⟩ := by
  have hxy := ditherOffset_int (K := ℚ) x y
  have hx1 := ditherOffset_int (K := ℚ) (x + 1) y
  have hy1 := ditherOffset_int (K := ℚ) x (y + 1)
  have hflipx : Even (x + 1 + y) ↔ ¬Even (x + y) := by
    rw [show x + 1 + y = x + y + 1 by ring, Int.even_add_one]
  have hflipy : Even (x + (y + 1)) ↔ ¬Even (x + y) := by
    rw [show x + (y + 1) = x + y + 1 by ring, Int.even_add_one]
  by_cases he : Even (x + y)
  · have d0 : ditherOffset (x : ℚ) (y : ℚ) = 0 := by rw [hxy, if_pos he]
    have d1 : ditherOffset ((x + 1 : ℤ) : ℚ) (y : ℚ) = DITHER_AMOUNT := by
      rw [hx1, if_neg (fun h => (hflipx.mp h) he)]
    have d2 : ditherOffset (x : ℚ) ((y + 1 : ℤ) : ℚ) = DITHER_AMOUNT := by
      rw [hy1, if_neg (fun h => (hflipy.mp h) he)]
    refine ⟨Or.inl d0, ?_, ?_, ?_, fun c d => rfl⟩
    · rw [d1, d0]; norm_num [DITHER_AMOUNT]
    · rw [d2, d0]; norm_num [DITHER_AMOUNT]
    · rw [d1, d0]; exact Set.pair_comm _ _
  · have d0 : ditherOffset (x : ℚ) (y : ℚ) = DITHER_AMOUNT := by
      rw [hxy, if_neg he]
    have d1 : ditherOffset ((x + 1 : ℤ) : ℚ) (y : ℚ) = 0 := by
      rw [hx1, if_pos (hflipx.mpr he)]
    have d2 : ditherOffset (x : ℚ) ((y + 1 : ℤ) : ℚ) = 0 := by
      rw [hy1, if_pos (hflipy.mpr he)]
    refine ⟨Or.inr d0, ?_, ?_, ?_, fun c d => rfl⟩
    · rw [d1, d0]; norm_num [DITHER_AMOUNT]
    · rw [d2, d0]; norm_num [DITHER_AMOUNT]
    · rw [d1, d0]

/-- Claim C10: in the bonfire shader the fog factor after the emissive offset
is at least `min(1, emissiveStrength * 0.5)` for every fragment distance; for
`emissiveStrength ≥ 2` the fog mix is the identity, and at the configured
`emissiveStrength = 1.5` the fog factor never drops below `0.75`. -/
theorem claim_C10 (distance fogNear fogFar es : ℚ) (hes : 0 ≤ es) :
    min 1 (es * EMISSIVE_FOG_FACTOR) ≤ bonfireFogFactor distance fogNear fogFar es
    ∧ (2 ≤ es → ∀ fogColor lit : Vec3 ℚ,
        mix fogColor lit (bonfireFogFactor distance fogNear fogFar es) = lit)
    ∧ (es = 3/2 → 3/4 ≤ bonfireFogFactor distance fogNear fogFar es) := by
  have hE : EMISSIVE_FOG_FACTOR (K := ℚ) = 1/2 := by norm_num [EMISSIVE_FOG_FACTOR]
  have hq0 : 0 ≤ quantize (glslClamp ((fogFar - distance) / (fogFar - fogNear)) 0 1)
      (LIGHTING_LEVELS (K := ℚ)) :=
    quantize_nonneg (glslClamp01_nonneg _) (by norm_num [LIGHTING_LEVELS])
  have hbf : bonfireFogFactor distance fogNear fogFar es =
      glslClamp
        (quantize (glslClamp ((fogFar - distance) / (fogFar - fogNear)) 0 1)
          LIGHTING_LEVELS + es * EMISSIVE_FOG_FACTOR) 0 1 := rfl
  have hmain : min 1 (es * EMISSIVE_FOG_FACTOR) ≤
      bonfireFogFactor distance fogNear fogFar es := by
    rw [hbf, glslClamp]
    refine le_min (le_trans ?_ (le_max_left _ _)) (min_le_left _ _)
    have := min_le_right (1 : ℚ) (es * EMISSIVE_FOG_FACTOR)
    linarith
  refine ⟨hmain, ?_, ?_⟩
  · intro h2 fogColor lit
    have hone : bonfireFogFactor distance fogNear fogFar es = 1 := by
      rw [hbf, glslClamp]
      refine min_eq_right (le_trans ?_ (le_max_left _ _))
      rw [hE]; linarith
    rw [hone]
    ext <;> simp [mix, Vec3.scale]
  · intro h32
    subst h32
    have hm : min (1 : ℚ) (3/2 * EMISSIVE_FOG_FACTOR) = 3/4 := by
      rw [hE]; norm_num [min_def]
    rw [hm] at hmain
    exact hmain

/-- Witness for C10 at `distance = 5`, `fogNear = 4`, `fogFar = 7`,
`emissiveStrength = 2`. -/
theorem claim_C10_witness :
    (0 : ℚ) ≤ 2
    ∧ (min 1 ((2 : ℚ) * EMISSIVE_FOG_FACTOR) ≤ bonfireFogFactor (5 : ℚ) 4 7 2
        ∧ ((2 : ℚ) ≤ 2 → ∀ fogColor lit : Vec3 ℚ,
            mix fogColor lit (bonfireFogFactor (5 : ℚ) 4 7 2) = lit)
        ∧ ((2 : ℚ) = 3/2 → (3/4 : ℚ) ≤ bonfireFogFactor (5 : ℚ) 4 7 2)) :=
  ⟨by norm_num, claim_C10 5 4 7 2 (by norm_num)⟩

/-- Sum of the non-specular light contributions accumulated by
`swordFs.glsl` `main` (the `CalcPS1DirLight` and `CalcPS1PointLight`
addends of lines 79-92). -/
noncomputable def swordLitNoSpec (dirLight : DirLight ℝ)
    (pointLights : ℕ → PointLight ℝ) (normal fragPos texColor : Vec3 ℝ) : Vec3 ℝ :=
  CalcPS1DirLight dirLight normal texColor +
    lightLoop 9 (fun i => CalcPS1PointLight (pointLights i) normal fragPos texColor)

/-- Sum of the specular terms accumulated by `swordFs.glsl` `main`
(the `dirSpecular` and `pointSpecular` addends of lines 79-92). -/
noncomputable def swordSpecTotal (dirLight : DirLight ℝ)
    (pointLights : ℕ → PointLight ℝ) (normal fragPos viewDir : Vec3 ℝ)
    (shininess : ℕ) : Vec3 ℝ :=
  dirLight.specular.scale
      (specFactor viewDir (normalizeV (-dirLight.direction)) normal shininess) +
    lightLoop 9 (fun i =>
      (pointLights i).specular.scale
        (specFactor viewDir (normalizeV ((pointLights i).position - fragPos))
          normal shininess))

theorem lightLoop_eq_zero {K : Type} [LinearOrderedField K] [FloorRing K]
    {n : ℕ} {f : ℕ → Vec3 K} (h : ∀ i, f i = 0) : lightLoop n f = 0 := by
  induction n with
  | zero => rfl
  | succ m ih =>
    show lightLoop m f + f m = 0
    rw [ih, h m]
    ext <;> simp

theorem lightLoop_add {K : Type} [LinearOrderedField K] [FloorRing K]
    (n : ℕ) (f g : ℕ → Vec3 K) :
    lightLoop n (fun i => f i + g i) = lightLoop n f + lightLoop n g := by
  induction n with
  | zero => ext <;> simp [lightLoop]
  | succ m ih =>
    show lightLoop m (fun i => f i + g i) + (f m + g m) = _
    rw [ih]
    show _ = lightLoop m f + f m + (lightLoop m g + g m)
    ext <;> simp <;> ring

/-- Decomposition of the sword shader: the accumulated color that gets
quantized at `COLOR_LEVELS` is the non-specular sum PLUS the specular sum;
dithering and clamping follow the quantization. -/
theorem swordShade_decomp (dirLight : DirLight ℝ) (pointLights : ℕ → PointLight ℝ)
    (material : Material ℝ) (normal fragPos viewPos texColor : Vec3 ℝ)
    (screenX screenY : ℝ) :
    swordShade dirLight pointLights material normal fragPos viewPos texColor
        screenX screenY =
      clampAndOut
        (quantizeColor
          (swordLitNoSpec dirLight pointLights (normalizeV normal) fragPos texColor +
            swordSpecTotal dirLight pointLights (normalizeV normal) fragPos
              (normalizeV (viewPos - fragPos)) material.shininess) COLOR_LEVELS +
          Vec3.splat (ditherOffset screenX screenY)) := by
  have key : ∀ a b c d : Vec3 ℝ, (0 + (a + b)) + (c + d) = (a + c) + (b + d) := by
    intro a b c d
    ext <;> simp <;> ring
  rw [swordShade, swordLitNoSpec, swordSpecTotal]
  rw [lightLoop_add 9
    (fun i => CalcPS1PointLight (pointLights i) (normalizeV normal) fragPos texColor)
    (fun i => (pointLights i).specular.scale
      (specFactor (normalizeV (viewPos - fragPos))
        (normalizeV ((pointLights i).position - fragPos)) (normalizeV normal)
        material.shininess))]
  rw [key]

/-- Claim C6 (amended): in the sword/prop shader the specular term
`pow(max(dot(viewDir, reflect(-lightDir, normal)), 0), shininess) *
light.specular` is unclamped, but it is added to the accumulated
diffuse/ambient sum BEFORE the `COLOR_LEVELS` quantization: the quantization
of (diffuse/ambient sum + specular sum) is what proceeds to dithering and
clamping, so the specular highlight is quantized along with the rest. -/
theorem claim_C6_amended (dirLight : DirLight ℝ) (pointLights : ℕ → PointLight ℝ)
    (material : Material ℝ) (normal fragPos viewPos texColor : Vec3 ℝ)
    (screenX screenY : ℝ) :
    swordShade dirLight pointLights material normal fragPos viewPos texColor
        screenX screenY =
      clampAndOut
        (quantizeColor
          (swordLitNoSpec dirLight pointLights (normalizeV normal) fragPos texColor +
            swordSpecTotal dirLight pointLights (normalizeV normal) fragPos
              (normalizeV (viewPos - fragPos)) material.shininess) COLOR_LEVELS +
          Vec3.splat (ditherOffset screenX screenY)) :=
  swordShade_decomp dirLight pointLights material normal fragPos viewPos texColor
    screenX screenY

/-- Counterexample to claim C6 as stated: at a concrete input (head-on view
of a head-on directional light with specular color `(0.26, 0.26, 0.26)` and
all other light colors zero) the sword shader does NOT equal
"quantized diffuse/ambient result plus unquantized specular, then dither and
clamp": the shader yields `(0.25, 0.25, 0.25)` (the specular went through
the `COLOR_LEVELS = 32` quantization), while the claimed form yields
`(0.26, 0.26, 0.26)`. -/
theorem claim_C6_cex :
    swordShade ⟨⟨0, 0, -1⟩, ⟨0, 0, 0⟩, ⟨0, 0, 0⟩, ⟨13/50, 13/50, 13/50⟩⟩
        (fun _ => ⟨⟨0, 0, 1⟩, 1, 0, 0, ⟨0, 0, 0⟩, ⟨0, 0, 0⟩, ⟨0, 0, 0⟩⟩)
        ⟨4, 0, 1⟩ ⟨0, 0, 1⟩ ⟨0, 0, 0⟩ ⟨0, 0, 1⟩ ⟨1, 1, 1⟩ 0 0 ≠
      clampAndOut
        (quantizeColor
          (swordLitNoSpec ⟨⟨0, 0, -1⟩, ⟨0, 0, 0⟩, ⟨0, 0, 0⟩, ⟨13/50, 13/50, 13/50⟩⟩
            (fun _ => ⟨⟨0, 0, 1⟩, 1, 0, 0, ⟨0, 0, 0⟩, ⟨0, 0, 0⟩, ⟨0, 0, 0⟩⟩)
            (normalizeV ⟨0, 0, 1⟩) ⟨0, 0, 0⟩ ⟨1, 1, 1⟩) COLOR_LEVELS +
          swordSpecTotal ⟨⟨0, 0, -1⟩, ⟨0, 0, 0⟩, ⟨0, 0, 0⟩, ⟨13/50, 13/50, 13/50⟩⟩
            (fun _ => ⟨⟨0, 0, 1⟩, 1, 0, 0, ⟨0, 0, 0⟩, ⟨0, 0, 0⟩, ⟨0, 0, 0⟩⟩)
            (normalizeV ⟨0, 0, 1⟩) ⟨0, 0, 0⟩ (normalizeV (⟨0, 0, 1⟩ - ⟨0, 0, 0⟩)) 4 +
          Vec3.splat (ditherOffset 0 0)) := by
  have hn : normalizeV (⟨0, 0, 1⟩ : Vec3 ℝ) = ⟨0, 0, 1⟩ := by
    have h1 : (⟨0, 0, 1⟩ : Vec3 ℝ).dot ⟨0, 0, 1⟩ = 1 := by norm_num [Vec3.dot]
    rw [normalizeV, vecLength, h1, Real.sqrt_one]
    ext <;> norm_num [Vec3.scale]
  have hsub : (⟨0, 0, 1⟩ : Vec3 ℝ) - ⟨0, 0, 0⟩ = ⟨0, 0, 1⟩ := by
    ext <;> norm_num
  have hpt : ∀ i : ℕ,
      CalcPS1PointLight ((fun _ : ℕ => (⟨⟨0, 0, 1⟩, 1, 0, 0, ⟨0, 0, 0⟩, ⟨0, 0, 0⟩,
          ⟨0, 0, 0⟩⟩ : PointLight ℝ)) i) ⟨0, 0, 1⟩ ⟨0, 0, 0⟩ ⟨1, 1, 1⟩ = 0 := by
    intro i
    ext <;> simp [CalcPS1PointLight, Vec3.scale]
  have hLit : swordLitNoSpec ⟨⟨0, 0, -1⟩, ⟨0, 0, 0⟩, ⟨0, 0, 0⟩, ⟨13/50, 13/50, 13/50⟩⟩
      (fun _ => ⟨⟨0, 0, 1⟩, 1, 0, 0, ⟨0, 0, 0⟩, ⟨0, 0, 0⟩, ⟨0, 0, 0⟩⟩)
      ⟨0, 0, 1⟩ ⟨0, 0, 0⟩ ⟨1, 1, 1⟩ = 0 := by
    rw [swordLitNoSpec, lightLoop_eq_zero hpt]
    ext <;> simp [CalcPS1DirLight, Vec3.scale]
  have hspecf : specFactor ⟨0, 0, 1⟩ (normalizeV (-(⟨0, 0, -1⟩ : Vec3 ℝ)))
      ⟨0, 0, 1⟩ 4 = 1 := by
    have hneg : -(⟨0, 0, -1⟩ : Vec3 ℝ) = ⟨0, 0, 1⟩ := by ext <;> norm_num
    rw [hneg, hn, specFactor, reflect]
    norm_num [Vec3.dot, Vec3.scale, max_def]
  have hSpec : swordSpecTotal ⟨⟨0, 0, -1⟩, ⟨0, 0, 0⟩, ⟨0, 0, 0⟩, ⟨13/50, 13/50, 13/50⟩⟩
      (fun _ => ⟨⟨0, 0, 1⟩, 1, 0, 0, ⟨0, 0, 0⟩, ⟨0, 0, 0⟩, ⟨0, 0, 0⟩⟩)
      ⟨0, 0, 1⟩ ⟨0, 0, 0⟩ ⟨0, 0, 1⟩ 4 = Vec3.splat (13/50) := by
    rw [swordSpecTotal,
      lightLoop_eq_zero (f := fun i =>
        ((fun _ : ℕ => (⟨⟨0, 0, 1⟩, 1, 0, 0, ⟨0, 0, 0⟩, ⟨0, 0, 0⟩,
          ⟨0, 0, 0⟩⟩ : PointLight ℝ)) i).specular.scale
          (specFactor ⟨0, 0, 1⟩
            (normalizeV (((fun _ : ℕ => (⟨⟨0, 0, 1⟩, 1, 0, 0, ⟨0, 0, 0⟩, ⟨0, 0, 0⟩,
              ⟨0, 0, 0⟩⟩ : PointLight ℝ)) i).position - ⟨0, 0, 0⟩)) ⟨0, 0, 1⟩ 4))
        (fun i => by ext <;> simp [Vec3.scale, Vec3.zero_def])]
    rw [hspecf]
    ext <;> simp [Vec3.scale, Vec3.splat]
  have hdither : ditherOffset (0 : ℝ) 0 = 0 := by
    norm_num [ditherOffset, glslMod, DITHER_PATTERN, DITHER_AMOUNT]
  rw [swordShade_decomp, hsub, hn, hLit, hSpec, hdither]
  have hz1 : ∀ v : Vec3 ℝ, (0 : Vec3 ℝ) + v = v := fun v => by ext <;> simp
  have hz2 : ∀ v : Vec3 ℝ, v + Vec3.splat (0 : ℝ) = v := fun v => by
    ext <;> simp [Vec3.splat]
  have hq0 : quantizeColor (0 : Vec3 ℝ) COLOR_LEVELS = 0 := by
    ext <;> simp [quantizeColor, quantize, COLOR_LEVELS]
  have hqs : quantizeColor (Vec3.splat (13/50) : Vec3 ℝ) COLOR_LEVELS =
      Vec3.splat (1/4) := by
    ext <;> norm_num [quantizeColor, quantize, COLOR_LEVELS, Vec3.splat]
  have hc : ∀ a : ℝ, 0 ≤ a → a ≤ 1 → clampAndOut (Vec3.splat a) = ⟨a, a, a, 1⟩ := by
    intro a h0 h1
    simp [clampAndOut, Vec3.clampC, Vec3.splat, glslClamp, max_eq_left h0,
      min_eq_left h1]
  rw [hz1, hz2, hq0, hz2, hz1, hqs, hc (1/4) (by norm_num) (by norm_num),
    hc (13/50) (by norm_num) (by norm_num)]
  simp [Vec4.mk.injEq]
  norm_num

end ArenaGame
